import Mathlib

/-!
A shallow embedding of the panorama viewer `app.js`.

The JS module-level mutable globals (`ready`, `animating`, `imageOffsetX`,
`previousTime`, `mouse`, `g_keys`, the canvas and the three scaled image
canvases) become fields of a `State` record.  JS numbers are modelled as
exact rationals.  The 2D drawing context is modelled as the list of draw
commands a call to `render` issues.  Functions that can raise an assertion
(`assert(cond)` throws on a falsy condition) return `Option`: `none` is the
thrown `Error`.  `window.requestAnimationFrame` is modelled as allocating a
fresh ID and appending it to a list of pending scheduled callbacks;
`window.cancelAnimationFrame` removes the ID from that list.
-/

/-- Key code for the left arrow key (`KEY_ARROW_LEFT = 37` in `app.js`). -/
def KEY_ARROW_LEFT : Nat := 37

/-- Key code for the up arrow key (`KEY_ARROW_UP = 38`). -/
def KEY_ARROW_UP : Nat := 38

/-- Key code for the right arrow key (`KEY_ARROW_RIGHT = 39`). -/
def KEY_ARROW_RIGHT : Nat := 39

/-- Key code for the down arrow key (`KEY_ARROW_DOWN = 40`). -/
def KEY_ARROW_DOWN : Nat := 40

/-- Key code for the letter A (`KEY_A = 65`). -/
def KEY_A : Nat := 65

/-- Key code for the letter W (`KEY_W = 87`). -/
def KEY_W : Nat := 87

/-- Key code for the letter D (`KEY_D = 68`). -/
def KEY_D : Nat := 68

/-- Key code for the letter S (`KEY_S = 83`). -/
def KEY_S : Nat := 83

/-- Panning speed (left / right) in pixels per second (`panningSpeed = 800`). -/
def panningSpeed : ℚ := 800

/-- Which of the three image canvases a draw command blits from. -/
inductive ImageId
  | background
  | foreground
  | border
deriving DecidableEq

/-- One immediate-mode drawing operation issued against the canvas context.
`fillRect` is the opaque black fill (`ctx.fillStyle = "#000"`); `drawImage`
is the two-argument `ctx.drawImage(image, dx, dy)` form; `drawImageRect` is
the nine-argument form with an explicit source rectangle. -/
inductive DrawCmd
  | fillRect (x y w h : ℚ)
  | drawImage (img : ImageId) (dx dy : ℚ)
  | drawImageRect (img : ImageId) (sx sy sWidth sHeight dx dy dWidth dHeight : ℚ)
deriving DecidableEq

/-- The module-level mutable state of `app.js`.  The `...ImageWidth/Height`
fields are the dimensions of the three source rasters (`foregroundImage`,
`backgroundImage`, `borderImage`); the `...CanvasWidth/Height` fields are the
dimensions of the three scaled canvases (`foregroundCanvas` etc.), as set by
`resizeImage`.  `pending` holds the IDs of scheduled animation-frame
callbacks; `nextRequestID` is the next fresh ID the host would hand out. -/
structure State where
  ready : Bool
  animating : Bool
  imageOffsetX : ℚ
  previousTime : ℚ
  imageScale : ℚ
  mouseX : ℚ
  mouseY : ℚ
  keys : Nat → Bool
  canvasWidth : ℚ
  canvasHeight : ℚ
  foregroundImageWidth : ℚ
  foregroundImageHeight : ℚ
  backgroundImageWidth : ℚ
  backgroundImageHeight : ℚ
  borderImageWidth : ℚ
  borderImageHeight : ℚ
  foregroundCanvasWidth : ℚ
  foregroundCanvasHeight : ℚ
  backgroundCanvasWidth : ℚ
  backgroundCanvasHeight : ℚ
  borderCanvasWidth : ℚ
  borderCanvasHeight : ℚ
  animationRequestID : Nat
  nextRequestID : Nat
  pending : List Nat

/-- `isKeyDown(keyCode)`: whether the key with code `keyCode` is pressed
(reads the `g_keys` array, here the `keys` field). -/
def isKeyDown (s : State) (keyCode : Nat) : Bool :=
  s.keys keyCode

/-- `isOneKeyDown(keyCodes)`: whether any key in `keyCodes` is pressed
(the source loops over the array returning on first hit). -/
def isOneKeyDown (s : State) (keyCodes : List Nat) : Bool :=
  keyCodes.any fun keyCode => isKeyDown s keyCode

/-- The value computed by `clamp`'s if / else-if / else chain, i.e.
`max(minValue, min(maxValue, value))`. -/
def clampVal (value minValue maxValue : ℚ) : ℚ :=
  if value < minValue then minValue
  else if value > maxValue then maxValue
  else value

/-- `clamp(value, minValue, maxValue)`: asserts `minValue <= maxValue`
(returning `none` when the assertion throws), then returns the if-chain
value. -/
def clamp (value minValue maxValue : ℚ) : Option ℚ :=
  if minValue ≤ maxValue then some (clampVal value minValue maxValue)
  else none

/-- `update(dt)`: the update phase of a main-loop iteration.  Moves
`imageOffsetX` proportionally to `dt` when a pan key is held.  Asserts
`canvas.width < foregroundCanvas.width` unconditionally. -/
def update (dt : ℚ) (s : State) : Option State :=
  let imageMovement := panningSpeed * dt / 1000
  let canvasWidth := s.canvasWidth
  let imageWidth := s.foregroundCanvasWidth
  if canvasWidth < imageWidth then
    let limit := imageWidth - canvasWidth
    if isOneKeyDown s [KEY_ARROW_LEFT, KEY_A] then
      (clamp (s.imageOffsetX - imageMovement) 0 limit).map
        fun offset => { s with imageOffsetX := offset }
    else if isOneKeyDown s [KEY_ARROW_RIGHT, KEY_D] then
      (clamp (s.imageOffsetX + imageMovement) 0 limit).map
        fun offset => { s with imageOffsetX := offset }
    else some s
  else none

/-- `render(dt)`: returns the list of draw commands issued for one frame.
A no-op (no commands) when `ready` is false.  The trailing framerate debug
block is behind `if (false)` and never draws.  `render` mutates no state. -/
def render (s : State) : List DrawCmd :=
  if !s.ready then []
  else
    let borderWidth := s.borderCanvasWidth
    let borderHeight := s.borderCanvasHeight
    let backgroundWidth := borderWidth * 0.937
    let backgroundHeight := borderHeight * 0.937
    [ DrawCmd.fillRect 0 0 s.canvasWidth s.canvasHeight,
      DrawCmd.drawImage ImageId.foreground (-s.imageOffsetX) 0,
      DrawCmd.drawImageRect ImageId.background
        (s.mouseX + s.imageOffsetX - backgroundWidth / 2)
        (s.mouseY - backgroundHeight / 2)
        backgroundWidth backgroundHeight
        (s.mouseX - backgroundWidth / 2)
        (s.mouseY - backgroundHeight / 2)
        backgroundWidth backgroundHeight,
      DrawCmd.drawImage ImageId.border
        (s.mouseX - borderWidth / 2)
        (s.mouseY - borderHeight / 2) ]

/-- `step(dt)`: one main-loop iteration, `update(dt)` then `render(dt)`. -/
def step (dt : ℚ) (s : State) : Option (State × List DrawCmd) :=
  (update dt s).map fun s1 => (s1, render s1)

/-- The elapsed time `animate` uses for movement:
`dt = Math.max(currentTime - previousTime, 1000 / 60)`. -/
def effectiveDt (currentTime previousTime : ℚ) : ℚ :=
  max (currentTime - previousTime) (1000 / 60)

/-- `window.requestAnimationFrame(animate)`: hands out a fresh ID, records
it as a pending scheduled callback and stores it in `animationRequestID`. -/
def requestAnimationFrame (s : State) : State :=
  { s with animationRequestID := s.nextRequestID,
           pending := s.pending ++ [s.nextRequestID],
           nextRequestID := s.nextRequestID + 1 }

/-- `animate(currentTime)`: aborts when not animating; otherwise computes the
effective dt, stores `currentTime` as `previousTime`, runs `step(dt)` and
schedules the next frame. -/
def animate (currentTime : ℚ) (s : State) : Option State :=
  if !s.animating then some s
  else
    let dt := effectiveDt currentTime s.previousTime
    let s1 := { s with previousTime := currentTime }
    (step dt s1).map fun result => requestAnimationFrame result.1

/-- `stopAnimation()`: clears `animating` and cancels the scheduled callback
with ID `animationRequestID`. -/
def stopAnimation (s : State) : State :=
  { s with animating := false,
           pending := s.pending.erase s.animationRequestID }

/-- `startAnimation()`: returns immediately when already animating; otherwise
sets `animating`, resets `previousTime` to 0 and invokes `animate(0)`. -/
def startAnimation (s : State) : Option State :=
  if s.animating then some s
  else animate 0 { s with animating := true, previousTime := 0 }

/-- `resizeImage(source, target, scale)`: the resulting target-canvas
dimensions, `Math.round(scale * source.width/height)` (the blit into the
target canvas carries no numeric state). -/
def resizeImage (sourceWidth sourceHeight scale : ℚ) : ℚ × ℚ :=
  (((round (scale * sourceWidth) : ℤ) : ℚ),
   ((round (scale * sourceHeight) : ℤ) : ℚ))

/-- `resizeImages()`: rescales the three canvases from the source images;
background and foreground by `imageScale`, border by `imageScale * 1.8`. -/
def resizeImages (s : State) : State :=
  let background := resizeImage s.backgroundImageWidth s.backgroundImageHeight s.imageScale
  let foreground := resizeImage s.foregroundImageWidth s.foregroundImageHeight s.imageScale
  let border := resizeImage s.borderImageWidth s.borderImageHeight (s.imageScale * 1.8)
  { s with backgroundCanvasWidth := background.1,
           backgroundCanvasHeight := background.2,
           foregroundCanvasWidth := foreground.1,
           foregroundCanvasHeight := foreground.2,
           borderCanvasWidth := border.1,
           borderCanvasHeight := border.2 }

/-- `resizeCanvas()`: no-op unless `ready`; otherwise adopts the bounding
rectangle as the canvas pixel size (canvas dimensions are whole pixels,
hence `Nat` inputs), recomputes `imageScale = canvas.height /
foregroundImage.height` and rescales the images. -/
def resizeCanvas (rectWidth rectHeight : Nat) (s : State) : State :=
  if !s.ready then s
  else
    let s1 := { s with canvasWidth := (rectWidth : ℚ), canvasHeight := (rectHeight : ℚ) }
    let s2 := { s1 with imageScale := s1.canvasHeight / s1.foregroundImageHeight }
    resizeImages s2

/-- Runs a sequence of ticks: each tick supplies the currently held keys
(set asynchronously by the key handlers) and the elapsed time, then applies
`update`. -/
def runTicks : State → List ((Nat → Bool) × ℚ) → Option State
  | s, [] => some s
  | s, (heldKeys, dt) :: rest =>
    match update dt { s with keys := heldKeys } with
    | none => none
    | some s1 => runTicks s1 rest

/-! ### Example states -/

/-- A representative ready state: canvas 800x600, foreground source
3000x1500 scaled by 0.4 to 1200x600 (the end-to-end scenario of the spec),
border canvas 200x150, no key held, mouse at (100, 100), idle loop. -/
def exState : State where
  ready := true
  animating := false
  imageOffsetX := 0
  previousTime := 0
  imageScale := 0.4
  mouseX := 100
  mouseY := 100
  keys := fun _ => false
  canvasWidth := 800
  canvasHeight := 600
  foregroundImageWidth := 3000
  foregroundImageHeight := 1500
  backgroundImageWidth := 3000
  backgroundImageHeight := 1500
  borderImageWidth := 300
  borderImageHeight := 200
  foregroundCanvasWidth := 1200
  foregroundCanvasHeight := 600
  backgroundCanvasWidth := 1200
  backgroundCanvasHeight := 600
  borderCanvasWidth := 200
  borderCanvasHeight := 150
  animationRequestID := 0
  nextRequestID := 1
  pending := []

/-- `exState` with the left-arrow key held. -/
def exLeft : State := { exState with keys := fun k => k == KEY_ARROW_LEFT }

/-- `exState` with `ready` cleared, the left-arrow key held and the offset
at 50. -/
def exNotReady : State :=
  { exState with ready := false, keys := fun k => k == KEY_ARROW_LEFT,
                 imageOffsetX := 50 }

/-- `exState` panned to offset 50 (the lens-sampling example of the spec:
mouse at (100, 100), border canvas 200x150). -/
def exLens : State := { exState with imageOffsetX := 50 }

/-! ### Helper lemmas -/

theorem clampVal_mem (value minValue maxValue : ℚ) (h : minValue ≤ maxValue) :
    minValue ≤ clampVal value minValue maxValue ∧
      clampVal value minValue maxValue ≤ maxValue := by
  unfold clampVal
  split_ifs <;> constructor <;> linarith

theorem clampVal_eq_self (value minValue maxValue : ℚ)
    (h1 : minValue ≤ value) (h2 : value ≤ maxValue) :
    clampVal value minValue maxValue = value := by
  unfold clampVal
  split_ifs <;> linarith

theorem clamp_eq_some (value minValue maxValue : ℚ) (h : minValue ≤ maxValue) :
    clamp value minValue maxValue = some (clampVal value minValue maxValue) := by
  simp [clamp, h]

theorem update_left_key (dt : ℚ) (s : State)
    (hpre : s.canvasWidth < s.foregroundCanvasWidth)
    (hL : isOneKeyDown s [KEY_ARROW_LEFT, KEY_A] = true) :
    update dt s = some
      { s with
        imageOffsetX :=
          clampVal (s.imageOffsetX - panningSpeed * dt / 1000) 0
            (s.foregroundCanvasWidth - s.canvasWidth) } := by
  have hlim : (0 : ℚ) ≤ s.foregroundCanvasWidth - s.canvasWidth := by linarith
  simp [update, hpre, hL, clamp_eq_some _ _ _ hlim]

theorem update_right_key (dt : ℚ) (s : State)
    (hpre : s.canvasWidth < s.foregroundCanvasWidth)
    (hL : isOneKeyDown s [KEY_ARROW_LEFT, KEY_A] = false)
    (hR : isOneKeyDown s [KEY_ARROW_RIGHT, KEY_D] = true) :
    update dt s = some
      { s with
        imageOffsetX :=
          clampVal (s.imageOffsetX + panningSpeed * dt / 1000) 0
            (s.foregroundCanvasWidth - s.canvasWidth) } := by
  have hlim : (0 : ℚ) ≤ s.foregroundCanvasWidth - s.canvasWidth := by linarith
  simp [update, hpre, hL, hR, clamp_eq_some _ _ _ hlim]

theorem update_no_key (dt : ℚ) (s : State)
    (hpre : s.canvasWidth < s.foregroundCanvasWidth)
    (hL : isOneKeyDown s [KEY_ARROW_LEFT, KEY_A] = false)
    (hR : isOneKeyDown s [KEY_ARROW_RIGHT, KEY_D] = false) :
    update dt s = some s := by
  simp [update, hpre, hL, hR]

theorem update_none_of_wide (dt : ℚ) (s : State)
    (h : ¬ s.canvasWidth < s.foregroundCanvasWidth) :
    update dt s = none := by
  simp [update, h]

theorem update_cases (dt : ℚ) (s : State) :
    update dt s = none ∨
      ∃ x, update dt s = some { s with imageOffsetX := x } := by
  by_cases hpre : s.canvasWidth < s.foregroundCanvasWidth
  · rcases hL : isOneKeyDown s [KEY_ARROW_LEFT, KEY_A] with _ | _
    · rcases hR : isOneKeyDown s [KEY_ARROW_RIGHT, KEY_D] with _ | _
      · right
        refine ⟨s.imageOffsetX, ?_⟩
        rw [update_no_key dt s hpre hL hR]
      · right; exact ⟨_, update_right_key dt s hpre hL hR⟩
    · right; exact ⟨_, update_left_key dt s hpre hL⟩
  · left; exact update_none_of_wide dt s hpre

/-! ### Claim theorems -/

/-- C7: for every `minValue ≤ maxValue` and every `value`,
`clamp(value, minValue, maxValue)` succeeds, lies within
`[minValue, maxValue]`, and equals `value` whenever
`minValue ≤ value ≤ maxValue`; when `minValue > maxValue` the assertion in
`clamp` fails. -/
theorem clamp_contract (value minValue maxValue : ℚ) :
    (minValue ≤ maxValue →
      clamp value minValue maxValue = some (clampVal value minValue maxValue) ∧
      minValue ≤ clampVal value minValue maxValue ∧
      clampVal value minValue maxValue ≤ maxValue ∧
      (minValue ≤ value → value ≤ maxValue →
        clampVal value minValue maxValue = value)) ∧
    (minValue > maxValue → clamp value minValue maxValue = none) := by
  constructor
  · intro h
    exact ⟨clamp_eq_some _ _ _ h, (clampVal_mem _ _ _ h).1, (clampVal_mem _ _ _ h).2,
      fun h1 h2 => clampVal_eq_self _ _ _ h1 h2⟩
  · intro h
    simp [clamp, not_le.mpr h]

/-- Witness for C7 at `clamp 5 0 10` (in range) and `clamp 3 10 0`
(inverted bounds, assertion failure). -/
theorem clamp_contract_witness :
    (clamp (5 : ℚ) 0 10 = some (clampVal 5 0 10) ∧
      (0 : ℚ) ≤ clampVal 5 0 10 ∧
      clampVal (5 : ℚ) 0 10 ≤ 10 ∧
      ((0 : ℚ) ≤ 5 → (5 : ℚ) ≤ 10 → clampVal (5 : ℚ) 0 10 = 5)) ∧
    clamp (3 : ℚ) 10 0 = none :=
  ⟨(clamp_contract 5 0 10).1 (by norm_num), (clamp_contract 3 10 0).2 (by norm_num)⟩

/-- C10: `update` evaluates the assertion `canvas.width <
foregroundCanvas.width` on every tick, before looking at any key: when the
precondition fails the tick throws (`none`) whatever the keys, and when it
holds the tick always succeeds. -/
theorem update_asserts_every_tick (dt : ℚ) (s : State) :
    (¬ s.canvasWidth < s.foregroundCanvasWidth → update dt s = none) ∧
    (s.canvasWidth < s.foregroundCanvasWidth → (update dt s).isSome = true) := by
  constructor
  · intro h
    exact update_none_of_wide dt s h
  · intro h
    rcases hL : isOneKeyDown s [KEY_ARROW_LEFT, KEY_A] with _ | _
    · rcases hR : isOneKeyDown s [KEY_ARROW_RIGHT, KEY_D] with _ | _
      · rw [update_no_key dt s h hL hR]; rfl
      · rw [update_right_key dt s h hL hR]; rfl
    · rw [update_left_key dt s h hL]; rfl

/-- Witness for C10: with an idle keyboard and a foreground canvas (700)
narrower than the canvas (800) the assertion fires; on `exState` the tick
succeeds. -/
theorem update_asserts_every_tick_witness :
    update 5 { exState with foregroundCanvasWidth := 700 } = none ∧
    (update 5 exState).isSome = true :=
  ⟨(update_asserts_every_tick 5 { exState with foregroundCanvasWidth := 700 }).1
      (by norm_num [exState]),
   (update_asserts_every_tick 5 exState).2 (by norm_num [exState])⟩

/-- C9: on a tick where no pan key (left-arrow, A, right-arrow, D) is held,
`update` returns the state exactly unchanged, whatever `dt` and whatever the
current offset — in particular an out-of-range `imageOffsetX` is not
re-clamped on such a tick. -/
theorem update_no_key_noop (dt : ℚ) (s : State)
    (hpre : s.canvasWidth < s.foregroundCanvasWidth)
    (hL : isOneKeyDown s [KEY_ARROW_LEFT, KEY_A] = false)
    (hR : isOneKeyDown s [KEY_ARROW_RIGHT, KEY_D] = false) :
    update dt s = some s :=
  update_no_key dt s hpre hL hR

/-- Witness for C9: the offset 999 is far beyond the travel limit 400 of
`exState`, yet an idle tick leaves it at 999. -/
theorem update_no_key_noop_witness :
    update 7 { exState with imageOffsetX := 999 } =
      some { exState with imageOffsetX := 999 } :=
  update_no_key_noop 7 { exState with imageOffsetX := 999 }
    (by norm_num [exState]) (by decide) (by decide)

/-- C4: with the pan precondition, a tick subtracts the movement
`panningSpeed * dt / 1000` (then clamps) when a left key (left-arrow or A)
is held; only otherwise, when a right key (right-arrow or D) is held, it
adds the movement (then clamps); so with both held the offset never
increases (for `dt ≥ 0` and an offset that is at least 0); and
`panningSpeed = 800`. -/
theorem pan_direction_priority (dt : ℚ) (s : State)
    (hpre : s.canvasWidth < s.foregroundCanvasWidth) :
    panningSpeed = 800 ∧
    (isOneKeyDown s [KEY_ARROW_LEFT, KEY_A] = true →
      update dt s = some
        { s with
          imageOffsetX :=
            clampVal (s.imageOffsetX - panningSpeed * dt / 1000) 0
              (s.foregroundCanvasWidth - s.canvasWidth) }) ∧
    (isOneKeyDown s [KEY_ARROW_LEFT, KEY_A] = false →
      isOneKeyDown s [KEY_ARROW_RIGHT, KEY_D] = true →
      update dt s = some
        { s with
          imageOffsetX :=
            clampVal (s.imageOffsetX + panningSpeed * dt / 1000) 0
              (s.foregroundCanvasWidth - s.canvasWidth) }) ∧
    (isOneKeyDown s [KEY_ARROW_LEFT, KEY_A] = true → 0 ≤ dt →
      0 ≤ s.imageOffsetX →
      ∀ s1, update dt s = some s1 → s1.imageOffsetX ≤ s.imageOffsetX) := by
  refine ⟨rfl, fun hL => update_left_key dt s hpre hL,
    fun hL hR => update_right_key dt s hpre hL hR, ?_⟩
  intro hL hdt hoff s1 hupd
  rw [update_left_key dt s hpre hL] at hupd
  obtain rfl : s1 =
      { s with
        imageOffsetX :=
          clampVal (s.imageOffsetX - panningSpeed * dt / 1000) 0
            (s.foregroundCanvasWidth - s.canvasWidth) } := by
    injection hupd with h
    exact h.symm
  have hm : 0 ≤ panningSpeed * dt / 1000 :=
    div_nonneg (mul_nonneg (by norm_num [panningSpeed]) hdt) (by norm_num)
  show clampVal (s.imageOffsetX - panningSpeed * dt / 1000) 0
      (s.foregroundCanvasWidth - s.canvasWidth) ≤ s.imageOffsetX
  unfold clampVal
  split_ifs <;> linarith

/-- Witness for C4 at `exLeft` (left-arrow held) with `dt = 10`. -/
theorem pan_direction_priority_witness :
    update 10 exLeft = some
      { exLeft with
        imageOffsetX :=
          clampVal (exLeft.imageOffsetX - panningSpeed * 10 / 1000) 0
            (exLeft.foregroundCanvasWidth - exLeft.canvasWidth) } :=
  (pan_direction_priority 10 exLeft (by norm_num [exLeft, exState])).2.1 (by decide)

theorem update_bounds (dt : ℚ) (s : State)
    (hpre : s.canvasWidth < s.foregroundCanvasWidth)
    (h0 : 0 ≤ s.imageOffsetX)
    (h1 : s.imageOffsetX ≤ s.foregroundCanvasWidth - s.canvasWidth) :
    ∃ s1, update dt s = some s1 ∧
      s1.canvasWidth = s.canvasWidth ∧
      s1.foregroundCanvasWidth = s.foregroundCanvasWidth ∧
      0 ≤ s1.imageOffsetX ∧
      s1.imageOffsetX ≤ s1.foregroundCanvasWidth - s1.canvasWidth := by
  have hlim : (0 : ℚ) ≤ s.foregroundCanvasWidth - s.canvasWidth := by linarith
  rcases hL : isOneKeyDown s [KEY_ARROW_LEFT, KEY_A] with _ | _
  · rcases hR : isOneKeyDown s [KEY_ARROW_RIGHT, KEY_D] with _ | _
    · exact ⟨s, update_no_key dt s hpre hL hR, rfl, rfl, h0, h1⟩
    · exact ⟨_, update_right_key dt s hpre hL hR, rfl, rfl,
        (clampVal_mem _ _ _ hlim).1, (clampVal_mem _ _ _ hlim).2⟩
  · exact ⟨_, update_left_key dt s hpre hL, rfl, rfl,
      (clampVal_mem _ _ _ hlim).1, (clampVal_mem _ _ _ hlim).2⟩

/-- C1: under the precondition `canvas.width < foregroundCanvas.width`,
every sequence of ticks (each supplying the held keys and an elapsed time)
run from an in-range offset succeeds, and the resulting `imageOffsetX`
stays within `[0, travelLimit]` where
`travelLimit = foregroundCanvas.width - canvas.width`. -/
theorem pan_bounds_invariant (s : State) (inputs : List ((Nat → Bool) × ℚ))
    (hpre : s.canvasWidth < s.foregroundCanvasWidth)
    (h0 : 0 ≤ s.imageOffsetX)
    (h1 : s.imageOffsetX ≤ s.foregroundCanvasWidth - s.canvasWidth) :
    ∃ s1, runTicks s inputs = some s1 ∧
      s1.canvasWidth = s.canvasWidth ∧
      s1.foregroundCanvasWidth = s.foregroundCanvasWidth ∧
      0 ≤ s1.imageOffsetX ∧
      s1.imageOffsetX ≤ s1.foregroundCanvasWidth - s1.canvasWidth := by
  induction inputs generalizing s with
  | nil => exact ⟨s, rfl, rfl, rfl, h0, h1⟩
  | cons input rest ih =>
    obtain ⟨heldKeys, dt⟩ := input
    obtain ⟨s1, hupd, hcw, hfw, hb0, hb1⟩ :=
      update_bounds dt { s with keys := heldKeys } hpre h0 h1
    have hpre1 : s1.canvasWidth < s1.foregroundCanvasWidth := by
      rw [hcw, hfw]; exact hpre
    obtain ⟨s2, hrun, hcw2, hfw2, hc0, hc1⟩ := ih s1 hpre1 hb0 hb1
    refine ⟨s2, ?_, ?_, ?_, hc0, hc1⟩
    · simp only [runTicks, hupd]; exact hrun
    · exact hcw2.trans hcw
    · exact hfw2.trans hfw

/-- Witness for C1: two ticks (a right pan then a left pan) from `exState`;
the offset ends within `[0, 400]`. -/
theorem pan_bounds_invariant_witness :
    ∃ s1, runTicks exState
        [(fun k => k == KEY_ARROW_RIGHT, 100), (fun k => k == KEY_A, 50)] = some s1 ∧
      s1.canvasWidth = exState.canvasWidth ∧
      s1.foregroundCanvasWidth = exState.foregroundCanvasWidth ∧
      0 ≤ s1.imageOffsetX ∧
      s1.imageOffsetX ≤ s1.foregroundCanvasWidth - s1.canvasWidth :=
  pan_bounds_invariant exState
    [(fun k => k == KEY_ARROW_RIGHT, 100), (fun k => k == KEY_A, 50)]
    (by norm_num [exState]) (by norm_num [exState]) (by norm_num [exState])

/-- C2 counterexample: the timestamps `currentTime = 10, previousTime = 0`
have a raw delta below 16.667, yet the effective dt the code computes is
`1000 / 60 = 16.666...`, not `16.667`. -/
theorem effectiveDt_floor_cex :
    (10 : ℚ) - 0 < 16.667 ∧ effectiveDt 10 0 ≠ 16.667 := by
  constructor
  · norm_num
  · unfold effectiveDt
    rw [max_eq_right (by norm_num : (10 : ℚ) - 0 ≤ 1000 / 60)]
    norm_num

/-- C2 (amended): the per-tick elapsed time used for movement is
`effectiveDt = max(currentTime - previousTime, 1000 / 60)`; for every pair
of timestamps with `currentTime - previousTime ≤ 1000 / 60` (≈ 16.667 ms)
the effective dt equals exactly `1000 / 60`, and deltas of at least
`1000 / 60` pass through unchanged (the floor raises small deltas and does
not cap large ones). -/
theorem effectiveDt_floor (currentTime previousTime : ℚ) :
    effectiveDt currentTime previousTime =
      max (currentTime - previousTime) (1000 / 60) ∧
    (currentTime - previousTime ≤ 1000 / 60 →
      effectiveDt currentTime previousTime = 1000 / 60) ∧
    (1000 / 60 ≤ currentTime - previousTime →
      effectiveDt currentTime previousTime = currentTime - previousTime) :=
  ⟨rfl, fun h => max_eq_right h, fun h => max_eq_left h⟩

/-- Witness for C2 (amended), at a small delta and at a large one. -/
theorem effectiveDt_floor_witness :
    effectiveDt 10 0 = 1000 / 60 ∧ effectiveDt 100 0 = 100 - 0 :=
  ⟨(effectiveDt_floor 10 0).2.1 (by norm_num),
   (effectiveDt_floor 100 0).2.2 (by norm_num)⟩

/-- C3 counterexample: `update` is not gated by `ready`.  In `exNotReady`
(`ready = false`, left-arrow held, offset 50) a tick with `dt = 1000` moves
`imageOffsetX` from 50 to 0. -/
theorem ready_gating_cex :
    exNotReady.ready = false ∧
    (update 1000 exNotReady).map State.imageOffsetX ≠
      some exNotReady.imageOffsetX ∧
    (update 1000 exNotReady).map State.imageOffsetX = some 0 := by
  have h := update_left_key 1000 exNotReady
    (by norm_num [exNotReady, exState]) (by decide)
  have hv : clampVal (exNotReady.imageOffsetX - panningSpeed * 1000 / 1000) 0
      (exNotReady.foregroundCanvasWidth - exNotReady.canvasWidth) = 0 := by
    norm_num [exNotReady, exState, clampVal, panningSpeed]
  refine ⟨rfl, ?_, ?_⟩ <;> rw [h] <;> simp [hv] <;>
    norm_num [exNotReady, exState, clampVal, panningSpeed]

/-- C3 (amended): when `ready` is false `render` performs no drawing, but
`update` itself is not gated by `ready` — tick activity is instead gated by
the `animating` flag, `animate` being a no-op when it is false; when `ready`
is true `render` draws, over a black fill of the canvas, the foreground, the
lens and the border, back-to-front in that fixed order. -/
theorem ready_gating (s : State) (currentTime : ℚ) :
    (s.ready = false → render s = []) ∧
    (s.animating = false → animate currentTime s = some s) ∧
    (s.ready = true → render s =
      [ DrawCmd.fillRect 0 0 s.canvasWidth s.canvasHeight,
        DrawCmd.drawImage ImageId.foreground (-s.imageOffsetX) 0,
        DrawCmd.drawImageRect ImageId.background
          (s.mouseX + s.imageOffsetX - s.borderCanvasWidth * 0.937 / 2)
          (s.mouseY - s.borderCanvasHeight * 0.937 / 2)
          (s.borderCanvasWidth * 0.937) (s.borderCanvasHeight * 0.937)
          (s.mouseX - s.borderCanvasWidth * 0.937 / 2)
          (s.mouseY - s.borderCanvasHeight * 0.937 / 2)
          (s.borderCanvasWidth * 0.937) (s.borderCanvasHeight * 0.937),
        DrawCmd.drawImage ImageId.border
          (s.mouseX - s.borderCanvasWidth / 2)
          (s.mouseY - s.borderCanvasHeight / 2) ]) :=
  ⟨fun h => by simp [render, h],
   fun h => by simp [animate, h],
   fun h => by simp [render, h]⟩

/-- Witness for C3 (amended): on `exState` (idle loop) a tick is a no-op,
and with `ready` cleared `render` issues no draw command. -/
theorem ready_gating_witness :
    animate 5 exState = some exState ∧
    render { exState with ready := false } = [] :=
  ⟨(ready_gating exState 5).2.1 rfl,
   (ready_gating { exState with ready := false } 5).1 rfl⟩

/-- C5: in a ready state the third draw command of `render` is the lens: it
samples the scaled background image on a rectangle of size
`0.937 * borderCanvas.width x 0.937 * borderCanvas.height` centered at
`(mouse.x + imageOffsetX, mouse.y)`, and draws it, at the same size, onto
the rectangle centered at the raw mouse position `(mouse.x, mouse.y)`. -/
theorem lens_geometry (s : State) (h : s.ready = true) :
    ∃ sx sy sw sh dx dy dw dh,
      (render s).get? 2 =
        some (DrawCmd.drawImageRect ImageId.background sx sy sw sh dx dy dw dh) ∧
      sw = 0.937 * s.borderCanvasWidth ∧
      sh = 0.937 * s.borderCanvasHeight ∧
      sx + sw / 2 = s.mouseX + s.imageOffsetX ∧
      sy + sh / 2 = s.mouseY ∧
      dw = sw ∧ dh = sh ∧
      dx + dw / 2 = s.mouseX ∧
      dy + dh / 2 = s.mouseY := by
  refine ⟨s.mouseX + s.imageOffsetX - s.borderCanvasWidth * 0.937 / 2,
    s.mouseY - s.borderCanvasHeight * 0.937 / 2,
    s.borderCanvasWidth * 0.937, s.borderCanvasHeight * 0.937,
    s.mouseX - s.borderCanvasWidth * 0.937 / 2,
    s.mouseY - s.borderCanvasHeight * 0.937 / 2,
    s.borderCanvasWidth * 0.937, s.borderCanvasHeight * 0.937,
    ?_, by ring, by ring, by ring, by ring, rfl, rfl, by ring, by ring⟩
  simp [render, h]

/-- Witness for C5 at `exLens` (mouse (100,100), offset 50, border canvas
200x150): the lens source rectangle is centered at (150, 100) with size
187.4 x 140.55, matching the spec's worked example. -/
theorem lens_geometry_witness :
    (∃ sx sy sw sh dx dy dw dh,
      (render exLens).get? 2 =
        some (DrawCmd.drawImageRect ImageId.background sx sy sw sh dx dy dw dh) ∧
      sw = 0.937 * exLens.borderCanvasWidth ∧
      sh = 0.937 * exLens.borderCanvasHeight ∧
      sx + sw / 2 = exLens.mouseX + exLens.imageOffsetX ∧
      sy + sh / 2 = exLens.mouseY ∧
      dw = sw ∧ dh = sh ∧
      dx + dw / 2 = exLens.mouseX ∧
      dy + dh / 2 = exLens.mouseY) ∧
    (0.937 : ℚ) * exLens.borderCanvasWidth = 187.4 ∧
    (0.937 : ℚ) * exLens.borderCanvasHeight = 140.55 ∧
    exLens.mouseX + exLens.imageOffsetX = 150 ∧
    exLens.mouseY = 100 :=
  ⟨lens_geometry exLens rfl, by norm_num [exLens, exState]⟩

theorem startAnimation_idle (s : State) (h : s.animating = false) :
    startAnimation s =
      (update (effectiveDt 0 0)
        { s with animating := true, previousTime := 0 }).map
        requestAnimationFrame := by
  simp [startAnimation, animate, step, h, Option.map_map]
  rfl

/-- C6: after `resizeCanvas` with a `rectWidth x rectHeight` bounding
rectangle, `imageScale = canvas.height / foregroundImage.height`, each
scaled canvas dimension equals `round(scale * sourceDimension)` — with
`scale = imageScale` for foreground and background and
`scale = 1.8 * imageScale` for the border overlay — and the scaled
foreground height equals the canvas height exactly. -/
theorem resize_postconditions (s : State) (rectWidth rectHeight : Nat)
    (hr : s.ready = true) (hh : 0 < s.foregroundImageHeight) :
    (resizeCanvas rectWidth rectHeight s).imageScale =
      (rectHeight : ℚ) / s.foregroundImageHeight ∧
    (resizeCanvas rectWidth rectHeight s).canvasWidth = (rectWidth : ℚ) ∧
    (resizeCanvas rectWidth rectHeight s).canvasHeight = (rectHeight : ℚ) ∧
    (resizeCanvas rectWidth rectHeight s).foregroundCanvasWidth =
      ((round ((resizeCanvas rectWidth rectHeight s).imageScale *
        s.foregroundImageWidth) : ℤ) : ℚ) ∧
    (resizeCanvas rectWidth rectHeight s).foregroundCanvasHeight =
      ((round ((resizeCanvas rectWidth rectHeight s).imageScale *
        s.foregroundImageHeight) : ℤ) : ℚ) ∧
    (resizeCanvas rectWidth rectHeight s).backgroundCanvasWidth =
      ((round ((resizeCanvas rectWidth rectHeight s).imageScale *
        s.backgroundImageWidth) : ℤ) : ℚ) ∧
    (resizeCanvas rectWidth rectHeight s).backgroundCanvasHeight =
      ((round ((resizeCanvas rectWidth rectHeight s).imageScale *
        s.backgroundImageHeight) : ℤ) : ℚ) ∧
    (resizeCanvas rectWidth rectHeight s).borderCanvasWidth =
      ((round (1.8 * (resizeCanvas rectWidth rectHeight s).imageScale *
        s.borderImageWidth) : ℤ) : ℚ) ∧
    (resizeCanvas rectWidth rectHeight s).borderCanvasHeight =
      ((round (1.8 * (resizeCanvas rectWidth rectHeight s).imageScale *
        s.borderImageHeight) : ℤ) : ℚ) ∧
    (resizeCanvas rectWidth rectHeight s).foregroundCanvasHeight =
      (resizeCanvas rectWidth rectHeight s).canvasHeight := by
  have hne : s.foregroundImageHeight ≠ 0 := ne_of_gt hh
  refine ⟨?_, ?_, ?_, ?_, ?_, ?_, ?_, ?_, ?_, ?_⟩ <;>
    simp only [resizeCanvas, resizeImages, resizeImage, hr, Bool.not_true,
      Bool.false_eq_true, if_false]
  · congr 2
    ring
  · congr 2
    ring
  · rw [div_mul_cancel₀ _ hne, round_natCast]
    norm_cast

/-- Witness for C6 at `exState` (foreground source 3000x1500) resized to a
canvas of 800x600: scale 0.4, scaled foreground height 600 = canvas
height. -/
theorem resize_postconditions_witness :
    (resizeCanvas 800 600 exState).imageScale =
      (600 : ℚ) / exState.foregroundImageHeight ∧
    (resizeCanvas 800 600 exState).canvasWidth = (800 : ℚ) ∧
    (resizeCanvas 800 600 exState).canvasHeight = (600 : ℚ) ∧
    (resizeCanvas 800 600 exState).foregroundCanvasWidth =
      ((round ((resizeCanvas 800 600 exState).imageScale *
        exState.foregroundImageWidth) : ℤ) : ℚ) ∧
    (resizeCanvas 800 600 exState).foregroundCanvasHeight =
      ((round ((resizeCanvas 800 600 exState).imageScale *
        exState.foregroundImageHeight) : ℤ) : ℚ) ∧
    (resizeCanvas 800 600 exState).backgroundCanvasWidth =
      ((round ((resizeCanvas 800 600 exState).imageScale *
        exState.backgroundImageWidth) : ℤ) : ℚ) ∧
    (resizeCanvas 800 600 exState).backgroundCanvasHeight =
      ((round ((resizeCanvas 800 600 exState).imageScale *
        exState.backgroundImageHeight) : ℤ) : ℚ) ∧
    (resizeCanvas 800 600 exState).borderCanvasWidth =
      ((round (1.8 * (resizeCanvas 800 600 exState).imageScale *
        exState.borderImageWidth) : ℤ) : ℚ) ∧
    (resizeCanvas 800 600 exState).borderCanvasHeight =
      ((round (1.8 * (resizeCanvas 800 600 exState).imageScale *
        exState.borderImageHeight) : ℤ) : ℚ) ∧
    (resizeCanvas 800 600 exState).foregroundCanvasHeight =
      (resizeCanvas 800 600 exState).canvasHeight :=
  resize_postconditions exState 800 600 rfl (by norm_num [exState])

/-- C8: starting while already animating changes nothing; stopping while
idle keeps `animating` false and — once its callback handle is no longer
pending, as after a stop — changes nothing at all; starting from idle
resets `previousTime` to 0 and immediately invokes one `animate` tick,
which (when it completes) leaves `previousTime` at 0 and schedules exactly
one new frame. -/
theorem start_stop_idempotent (s : State) :
    (s.animating = true → startAnimation s = some s) ∧
    (s.animating = false →
      (stopAnimation s).animating = false ∧
      (s.animationRequestID ∉ s.pending → stopAnimation s = s) ∧
      startAnimation s =
        animate 0 { s with animating := true, previousTime := 0 } ∧
      ∀ s1, startAnimation s = some s1 →
        s1.previousTime = 0 ∧ s1.pending.length = s.pending.length + 1) := by
  constructor
  · intro h
    simp [startAnimation, h]
  · intro h
    refine ⟨rfl, ?_, ?_, ?_⟩
    · intro hmem
      unfold stopAnimation
      rw [List.erase_of_not_mem hmem]
      cases s
      simp_all
    · simp [startAnimation, h]
    · intro s1 hstart
      rw [startAnimation_idle s h] at hstart
      rcases update_cases (effectiveDt 0 0)
          { s with animating := true, previousTime := 0 } with hu | ⟨x, hu⟩ <;>
        rw [hu] at hstart
      · simp at hstart
      · rw [Option.map_some'] at hstart
        injection hstart with h2
        subst h2
        exact ⟨rfl, by simp [requestAnimationFrame]⟩

/-- Witness for C8: starting `exState` already animating is the identity;
stopping idle `exState` keeps `animating` false and is the identity. -/
theorem start_stop_idempotent_witness :
    startAnimation { exState with animating := true } =
      some { exState with animating := true } ∧
    (stopAnimation exState).animating = false ∧
    stopAnimation exState = exState :=
  ⟨(start_stop_idempotent { exState with animating := true }).1 rfl,
   ((start_stop_idempotent exState).2 rfl).1,
   ((start_stop_idempotent exState).2 rfl).2.1 (by decide)⟩
